import Mathlib

/-!
Verification of the clamped-attribute types of `nwest-shared-component-library`

Shallow embedding of `src/decimal_attribute.rs`, `src/integer_attribute.rs` and
`src/errors.rs`.

Modelling conventions:
* Rust `f64`/`f32` values are modelled as rationals (`ℚ`).  The library's
  claims under scrutiny concern clamping, zero guards and exact formulas, not
  floating-point rounding, and every concrete input used below is exactly
  representable with exact operation results in both `f32` and `f64`.
  A quotient whose floating-point value would be `±inf`/`NaN` (zero
  denominator) is modelled as `Option.none` where it can arise.
* Rust `i32` values are modelled as `ℤ`, with the `i32` range made explicit
  (`inI32`) at the points where the source uses checked arithmetic; raw
  (unchecked) `i32` arithmetic that may overflow is modelled with the
  release-build wrapping semantics (`wrap32`).  `u32` operands are modelled as
  integers in `[0, 2^32)`.
* Rust `x.clamp(lo, hi)` asserts `lo ≤ hi`; we model the in-bounds behaviour
  (`if x < lo then lo else if x > hi then hi else x`), and theorems that rely
  on clamping carry the `lo ≤ hi` precondition explicitly.
* A Rust operation that panics (integer division by zero, `i32::MIN / -1`)
  is modelled as an `Option`-valued function returning `none` there.
* Fallible Rust functions (`Result<T, AttributeError>`) are modelled with
  `Except AttributeError`.
-/

namespace NwestLib

/-- The error enum from `src/errors.rs` (payload-carrying variants only keep
the payloads; `f64` payloads are rationals). -/
inductive AttributeError where
  | attributeError (msg : String)
  | minGreaterThanMax (min max : ℤ)
  | decimalMinGreaterThanMax (min max : ℚ)
  | maxLessThanMin (max min : ℤ)
  | decimalMaxLessThanMin (max min : ℚ)
  | conversionError (msg : String)
  deriving DecidableEq

/-- Whether an error is the `ConversionError` variant. -/
def AttributeError.isConversionError : AttributeError → Prop
  | .conversionError _ => True
  | _ => False

instance (e : AttributeError) : Decidable e.isConversionError := by
  cases e <;> simp [AttributeError.isConversionError] <;> infer_instance

/-- Rust `f64::clamp` (defined when `lo ≤ hi`). -/
def clampQ (x lo hi : ℚ) : ℚ :=
  if x < lo then lo else if x > hi then hi else x

/-- Rust `i32::clamp` (defined when `lo ≤ hi`). -/
def clampI (x lo hi : ℤ) : ℤ :=
  if x < lo then lo else if x > hi then hi else x

theorem clampQ_le (x lo hi : ℚ) (h : lo ≤ hi) :
    lo ≤ clampQ x lo hi ∧ clampQ x lo hi ≤ hi := by
  unfold clampQ
  split
  · exact ⟨le_refl lo, h⟩
  · split
    · exact ⟨h, le_refl hi⟩
    · exact ⟨le_of_not_lt (by assumption), le_of_not_lt (by assumption)⟩

theorem clampI_le (x lo hi : ℤ) (h : lo ≤ hi) :
    lo ≤ clampI x lo hi ∧ clampI x lo hi ≤ hi := by
  unfold clampI
  split <;> [skip; split] <;> omega

/-- Truncation toward zero, as Rust `f64` casts and `%` use. -/
def truncQ (q : ℚ) : ℤ := if 0 ≤ q then ⌊q⌋ else ⌈q⌉

/-- Rust `f64` remainder `x % y` (for `y ≠ 0`): same sign as the dividend,
`x - y * trunc(x / y)`. -/
def remQ (x y : ℚ) : ℚ := x - y * truncQ (x / y)

/-- The struct from `src/decimal_attribute.rs` (fields in source order). -/
structure DecimalAttribute where
  current : ℚ
  min : ℚ
  max : ℚ
  deriving DecidableEq

namespace DecimalAttribute

/-- Rust `DecimalAttribute::new`: the value becomes both `current` and `max`;
`min` is `0.0`. -/
def new (value : ℚ) : DecimalAttribute :=
  { current := value, min := 0, max := value }

/-- Rust `DecimalAttribute::as_defined`. -/
def as_defined (value min max : ℚ) : Except AttributeError DecimalAttribute :=
  if min > max then
    .error (.decimalMinGreaterThanMax min max)
  else if max < min then
    .error (.decimalMaxLessThanMin max min)
  else
    .ok { current := value, min := min, max := max }

/-- Rust `DecimalAttribute::with_min_max_and_current` (wrapper around `as_defined`). -/
def with_min_max_and_current (value min max : ℚ) :
    Except AttributeError DecimalAttribute :=
  as_defined value min max

/-- Rust `DecimalAttribute::with_min_and_max` (wrapper around `as_defined` with
`value = max`). -/
def with_min_and_max (min max : ℚ) : Except AttributeError DecimalAttribute :=
  as_defined max min max

/-- Rust `DecimalAttribute::set_min` (`&mut self` receiver modelled by returning
the updated struct on success). -/
def set_min (a : DecimalAttribute) (mn : ℚ) :
    Except AttributeError DecimalAttribute :=
  if mn > a.max then
    .error (.decimalMinGreaterThanMax mn a.max)
  else
    .ok { current := Max.max a.current mn, min := mn, max := a.max }

/-- Rust `DecimalAttribute::set_max`. -/
def set_max (a : DecimalAttribute) (mx : ℚ) :
    Except AttributeError DecimalAttribute :=
  if mx < a.min then
    .error (.decimalMaxLessThanMin mx a.min)
  else
    .ok { current := Min.min a.current mx, min := a.min, max := mx }

/-- Rust `DecimalAttribute::set_min_max`. -/
def set_min_max (a : DecimalAttribute) (mn mx : ℚ) :
    Except AttributeError DecimalAttribute :=
  if mn > mx then
    .error (.decimalMinGreaterThanMax mn mx)
  else if mx < mn then
    .error (.decimalMaxLessThanMin mx mn)
  else
    .ok { current := clampQ a.current mn mx, min := mn, max := mx }

/-- Rust `DecimalAttribute::set_current`. -/
def set_current (a : DecimalAttribute) (c : ℚ) : DecimalAttribute :=
  { a with current := clampQ c a.min a.max }

/-- Rust `DecimalAttribute::set_value` (wrapper for `set_current`). -/
def set_value (a : DecimalAttribute) (v : ℚ) : DecimalAttribute :=
  a.set_current v

/-- Rust `DecimalAttribute::current_value`. -/
def current_value (a : DecimalAttribute) : ℚ :=
  clampQ a.current a.min a.max

/-- Rust `DecimalAttribute::current_percentage`: shifts `current` and `max` by
`-min`, guarding the zero denominator. -/
def current_percentage (a : DecimalAttribute) : ℚ :=
  let current := a.current - a.min
  let max := a.max - a.min
  if max = 0 then 0 else current / max

/-- Rust `impl Add<f64> for DecimalAttribute`. -/
def add_f64 (a : DecimalAttribute) (rhs : ℚ) : DecimalAttribute :=
  { a with current := clampQ (a.current + rhs) a.min a.max }

/-- Rust `impl Add<f32> for DecimalAttribute` (the `f32` is cast losslessly to
`f64` before the addition). -/
def add_f32 (a : DecimalAttribute) (rhs : ℚ) : DecimalAttribute :=
  { a with current := clampQ (a.current + rhs) a.min a.max }

/-- Rust `impl AddAssign<f64> for DecimalAttribute`. -/
def add_assign_f64 (a : DecimalAttribute) (rhs : ℚ) : DecimalAttribute :=
  { a with current := clampQ (a.current + rhs) a.min a.max }

/-- Rust `impl AddAssign<f32> for DecimalAttribute`. -/
def add_assign_f32 (a : DecimalAttribute) (rhs : ℚ) : DecimalAttribute :=
  { a with current := clampQ (a.current + rhs) a.min a.max }

/-- Rust `impl Sub<f64> for DecimalAttribute`. -/
def sub_f64 (a : DecimalAttribute) (rhs : ℚ) : DecimalAttribute :=
  { a with current := clampQ (a.current - rhs) a.min a.max }

/-- Rust `impl Sub<f32> for DecimalAttribute`. -/
def sub_f32 (a : DecimalAttribute) (rhs : ℚ) : DecimalAttribute :=
  { a with current := clampQ (a.current - rhs) a.min a.max }

/-- Rust `impl SubAssign<f64> for DecimalAttribute`. -/
def sub_assign_f64 (a : DecimalAttribute) (rhs : ℚ) : DecimalAttribute :=
  { a with current := clampQ (a.current - rhs) a.min a.max }

/-- Rust `impl SubAssign<f32> for DecimalAttribute`. -/
def sub_assign_f32 (a : DecimalAttribute) (rhs : ℚ) : DecimalAttribute :=
  { a with current := clampQ (a.current - rhs) a.min a.max }

/-- Rust `impl Mul<f64> for DecimalAttribute`. -/
def mul_f64 (a : DecimalAttribute) (rhs : ℚ) : DecimalAttribute :=
  { a with current := clampQ (a.current * rhs) a.min a.max }

/-- Rust `impl Mul<f32> for DecimalAttribute`. -/
def mul_f32 (a : DecimalAttribute) (rhs : ℚ) : DecimalAttribute :=
  { a with current := clampQ (a.current * rhs) a.min a.max }

/-- Rust `impl MulAssign<f64> for DecimalAttribute`. -/
def mul_assign_f64 (a : DecimalAttribute) (rhs : ℚ) : DecimalAttribute :=
  { a with current := clampQ (a.current * rhs) a.min a.max }

/-- Rust `impl MulAssign<f32> for DecimalAttribute`. -/
def mul_assign_f32 (a : DecimalAttribute) (rhs : ℚ) : DecimalAttribute :=
  { a with current := clampQ (a.current * rhs) a.min a.max }

/-- Rust `impl Div<f64> for DecimalAttribute`: zero divisor returns `self`
unchanged. -/
def div_f64 (a : DecimalAttribute) (rhs : ℚ) : DecimalAttribute :=
  if rhs = 0 then a
  else { a with current := clampQ (a.current / rhs) a.min a.max }

/-- Rust `impl Div<f32> for DecimalAttribute`: the zero test is on the `f32`
operand, then it is cast losslessly to `f64`. -/
def div_f32 (a : DecimalAttribute) (rhs : ℚ) : DecimalAttribute :=
  if rhs = 0 then a
  else { a with current := clampQ (a.current / rhs) a.min a.max }

/-- Rust `impl DivAssign<f64> for DecimalAttribute`. -/
def div_assign_f64 (a : DecimalAttribute) (rhs : ℚ) : DecimalAttribute :=
  if rhs = 0 then a
  else { a with current := clampQ (a.current / rhs) a.min a.max }

/-- Rust `impl DivAssign<f32> for DecimalAttribute`. -/
def div_assign_f32 (a : DecimalAttribute) (rhs : ℚ) : DecimalAttribute :=
  if rhs = 0 then a
  else { a with current := clampQ (a.current / rhs) a.min a.max }

/-- Rust `impl Rem<f64> for DecimalAttribute`: zero divisor returns `self`
unchanged. -/
def rem_f64 (a : DecimalAttribute) (rhs : ℚ) : DecimalAttribute :=
  if rhs = 0 then a
  else { a with current := clampQ (remQ a.current rhs) a.min a.max }

/-- Rust `impl Rem<f32> for DecimalAttribute`. -/
def rem_f32 (a : DecimalAttribute) (rhs : ℚ) : DecimalAttribute :=
  if rhs = 0 then a
  else { a with current := clampQ (remQ a.current rhs) a.min a.max }

/-- Rust `impl RemAssign<f64> for DecimalAttribute`. -/
def rem_assign_f64 (a : DecimalAttribute) (rhs : ℚ) : DecimalAttribute :=
  if rhs = 0 then a
  else { a with current := clampQ (remQ a.current rhs) a.min a.max }

/-- Rust `impl RemAssign<f32> for DecimalAttribute`. -/
def rem_assign_f32 (a : DecimalAttribute) (rhs : ℚ) : DecimalAttribute :=
  if rhs = 0 then a
  else { a with current := clampQ (remQ a.current rhs) a.min a.max }

/-- Rust `impl Neg for DecimalAttribute`. -/
def neg (a : DecimalAttribute) : DecimalAttribute :=
  { a with current := clampQ (-a.current) a.min a.max }

/-- The documented invariant of a clamped attribute. -/
def Inv (a : DecimalAttribute) : Prop :=
  a.min ≤ a.current ∧ a.current ≤ a.max

instance (a : DecimalAttribute) : Decidable a.Inv :=
  inferInstanceAs (Decidable (_ ∧ _))

end DecimalAttribute

/-- Rust `i32::MIN`. -/
def i32Min : ℤ := -(2 ^ 31)

/-- Rust `i32::MAX`. -/
def i32Max : ℤ := 2 ^ 31 - 1

/-- Membership in the `i32` range. -/
def inI32 (n : ℤ) : Prop := i32Min ≤ n ∧ n ≤ i32Max

instance (n : ℤ) : Decidable (inI32 n) :=
  inferInstanceAs (Decidable (_ ∧ _))

/-- Two's-complement wrap of an integer into the `i32` range: the result of
unchecked `i32` arithmetic in a release build. -/
def wrap32 (n : ℤ) : ℤ := (n + 2 ^ 31) % 2 ^ 32 - 2 ^ 31

/-- Rust `i32::checked_add` (`none` on overflow). -/
def checkedAdd (x y : ℤ) : Option ℤ :=
  if inI32 (x + y) then some (x + y) else none

/-- Rust `i32::checked_sub` (`none` on overflow). -/
def checkedSub (x y : ℤ) : Option ℤ :=
  if inI32 (x - y) then some (x - y) else none

/-- Rust `i32::checked_mul` (`none` on overflow). -/
def checkedMul (x y : ℤ) : Option ℤ :=
  if inI32 (x * y) then some (x * y) else none

/-- The struct from `src/integer_attribute.rs` (fields in source order:
`max`, `min`, `current`). -/
structure IntegerAttribute where
  max : ℤ
  min : ℤ
  current : ℤ
  deriving DecidableEq

namespace IntegerAttribute

/-- Rust `IntegerAttribute::new` (argument order `min, max, current`). -/
def new (min max current : ℤ) : Except AttributeError IntegerAttribute :=
  if min > max then
    .error (.minGreaterThanMax min max)
  else
    .ok { min := min, max := max, current := clampI current min max }

/-- Rust `IntegerAttribute::set_min` (builder style, `mut self`): when the
attribute is uninitialised (`max == 0 && min == 0`) the `max` is first set to
the new minimum. -/
def set_min (a : IntegerAttribute) (mn : ℤ) :
    Except AttributeError IntegerAttribute :=
  let a := if a.max = 0 ∧ a.min = 0 then { a with max := mn } else a
  if mn > a.max then
    .error (.minGreaterThanMax mn a.max)
  else
    .ok { a with min := mn, current := clampI a.current mn a.max }

/-- Rust `IntegerAttribute::set_max` (builder style, `mut self`): when `current`
is `0` it is first set to the new maximum. -/
def set_max (a : IntegerAttribute) (mx : ℤ) :
    Except AttributeError IntegerAttribute :=
  let a := if a.current = 0 then { a with current := mx } else a
  if mx < a.min then
    .error (.maxLessThanMin mx a.min)
  else
    .ok { a with max := mx, current := clampI a.current a.min mx }

/-- Rust `IntegerAttribute::set_current` (builder style, never fails). -/
def set_current (a : IntegerAttribute) (c : ℤ) : IntegerAttribute :=
  { a with current := clampI c a.min a.max }

/-- Rust `IntegerAttribute::current_value`. -/
def current_value (a : IntegerAttribute) : ℤ :=
  clampI a.current a.min a.max

/-- Rust `IntegerAttribute::current_percentage`: branches on the sign of
`min`.  The sums `current + min` / `max + min` (and the differences on the
positive branch) are raw, unchecked `i32` arithmetic performed before the
`as f32` cast, so they wrap in a release build: modelled with `wrap32`.
The `f32` division is modelled exactly over `ℚ`, with `none` standing for a
non-finite result (zero denominator). -/
def current_percentage (a : IntegerAttribute) : Option ℚ :=
  if a.min < 0 then
    if wrap32 (a.max + a.min) = 0 then none
    else some ((wrap32 (a.current + a.min) : ℚ) / (wrap32 (a.max + a.min) : ℚ))
  else if a.min = 0 then
    if a.max = 0 then none
    else some ((a.current : ℚ) / (a.max : ℚ))
  else
    if wrap32 (a.max - a.min) = 0 then none
    else some ((wrap32 (a.current - a.min) : ℚ) / (wrap32 (a.max - a.min) : ℚ))

/-- Rust `IntegerAttribute::set_current_value` (`&mut self`). -/
def set_current_value (a : IntegerAttribute) (value : ℤ) : IntegerAttribute :=
  { a with current := clampI value a.min a.max }

/-- Rust `IntegerAttribute::set_max_value` (`&mut self`). -/
def set_max_value (a : IntegerAttribute) (value : ℤ) :
    Except AttributeError IntegerAttribute :=
  if value < a.min then
    .error (.maxLessThanMin value a.min)
  else
    .ok { a with max := value, current := clampI a.current a.min value }

/-- Rust `IntegerAttribute::set_min_value` (`&mut self`). -/
def set_min_value (a : IntegerAttribute) (value : ℤ) :
    Except AttributeError IntegerAttribute :=
  if value > a.max then
    .error (.minGreaterThanMax value a.max)
  else
    .ok { a with min := value, current := clampI a.current value a.max }

/-- Rust `impl TryFrom<IntegerAttribute> for u32`: fails when `current` is
negative, else returns `current` (the `as u32` cast is value-preserving for
nonnegative `i32`). -/
def try_from_u32 (a : IntegerAttribute) : Except AttributeError ℤ :=
  if a.current < 0 then
    .error (.conversionError
      "Current value is negative when trying to convert to u32.")
  else
    .ok a.current

/-- Rust `impl Add<i32> for IntegerAttribute`: checked addition saturating to
`max` on overflow, then clamped. -/
def add_i32 (a : IntegerAttribute) (rhs : ℤ) : IntegerAttribute :=
  { a with current := clampI ((checkedAdd a.current rhs).getD a.max) a.min a.max }

/-- Rust `impl AddAssign<i32> for IntegerAttribute`. -/
def add_assign_i32 (a : IntegerAttribute) (rhs : ℤ) : IntegerAttribute :=
  { a with current := clampI ((checkedAdd a.current rhs).getD a.max) a.min a.max }

/-- Rust `impl Sub<i32> for IntegerAttribute`: checked subtraction saturating to
`min` on overflow, then clamped. -/
def sub_i32 (a : IntegerAttribute) (rhs : ℤ) : IntegerAttribute :=
  { a with current := clampI ((checkedSub a.current rhs).getD a.min) a.min a.max }

/-- Rust `impl SubAssign<i32> for IntegerAttribute`. -/
def sub_assign_i32 (a : IntegerAttribute) (rhs : ℤ) : IntegerAttribute :=
  { a with current := clampI ((checkedSub a.current rhs).getD a.min) a.min a.max }

/-- Rust `impl Mul<i32> for IntegerAttribute`: unchecked multiplication (wrapping
in a release build), then clamped. -/
def mul_i32 (a : IntegerAttribute) (rhs : ℤ) : IntegerAttribute :=
  { a with current := clampI (wrap32 (a.current * rhs)) a.min a.max }

/-- Rust `impl MulAssign<i32> for IntegerAttribute`. -/
def mul_assign_i32 (a : IntegerAttribute) (rhs : ℤ) : IntegerAttribute :=
  { a with current := clampI (wrap32 (a.current * rhs)) a.min a.max }

/-- Rust `impl Div<i32> for IntegerAttribute`: the source division
`self.current / rhs` has no zero guard; `none` models the Rust panic on a
zero divisor (or on `i32::MIN / -1`).  Rust `i32` division truncates toward
zero (`Int.tdiv`). -/
def div_i32 (a : IntegerAttribute) (rhs : ℤ) : Option IntegerAttribute :=
  if rhs = 0 ∨ (a.current = i32Min ∧ rhs = -1) then none
  else some { a with current := clampI (Int.tdiv a.current rhs) a.min a.max }

/-- Rust `impl DivAssign<i32> for IntegerAttribute`. -/
def div_assign_i32 (a : IntegerAttribute) (rhs : ℤ) : Option IntegerAttribute :=
  if rhs = 0 ∨ (a.current = i32Min ∧ rhs = -1) then none
  else some { a with current := clampI (Int.tdiv a.current rhs) a.min a.max }

/-- Rust `impl Add<u32> for IntegerAttribute`: an operand above `i32::MAX` yields
`current = max`; otherwise checked addition as in `add_i32`. -/
def add_u32 (a : IntegerAttribute) (rhs : ℤ) : IntegerAttribute :=
  if rhs > i32Max then
    { a with current := a.max }
  else
    { a with current := clampI ((checkedAdd a.current rhs).getD a.max) a.min a.max }

/-- Rust `impl Sub<u32> for IntegerAttribute`: an operand above `i32::MAX` is
replaced by `i32::MAX` (checked, saturating to `min`); otherwise the raw
subtraction (wrapping in a release build), then clamped. -/
def sub_u32 (a : IntegerAttribute) (rhs : ℤ) : IntegerAttribute :=
  if rhs > i32Max then
    { a with current := clampI ((checkedSub a.current i32Max).getD a.min) a.min a.max }
  else
    { a with current := clampI (wrap32 (a.current - rhs)) a.min a.max }

/-- Rust `impl Mul<u32> for IntegerAttribute`: an operand above `i32::MAX` yields
`min`/`current`/`max` according to the sign of `current`; otherwise checked
multiplication with the same sign-based saturation, then clamped. -/
def mul_u32 (a : IntegerAttribute) (rhs : ℤ) : IntegerAttribute :=
  if rhs > i32Max then
    if a.current < 0 then { a with current := a.min }
    else if a.current = 0 then { a with current := a.current }
    else { a with current := a.max }
  else
    let fallback := if a.current < 0 then a.min else if a.current = 0 then 0 else a.max
    { a with current := clampI ((checkedMul a.current rhs).getD fallback) a.min a.max }

/-- Rust `impl Div<u32> for IntegerAttribute`: a zero divisor or an operand above
`i32::MAX` yields `0` clamped into the bounds; otherwise truncated division,
then clamped. -/
def div_u32 (a : IntegerAttribute) (rhs : ℤ) : IntegerAttribute :=
  if rhs = 0 ∨ rhs > i32Max then
    { a with current := clampI 0 a.min a.max }
  else
    { a with current := clampI (Int.tdiv a.current rhs) a.min a.max }

/-- The documented invariant of a clamped attribute. -/
def Inv (a : IntegerAttribute) : Prop :=
  a.min ≤ a.current ∧ a.current ≤ a.max

instance (a : IntegerAttribute) : Decidable a.Inv :=
  inferInstanceAs (Decidable (_ ∧ _))

end IntegerAttribute

/-- Left-pad a two-digit fraction part with `0`. -/
def pad2 (n : ℕ) : String :=
  if n < 10 then "0" ++ toString n else toString n

/-- Rust `{:.2}` formatting of a numeric value, modelled for values whose
hundredths are exact (every concrete rendering proved below is of this form,
so the float tie-breaking rule and the negative-zero case never arise). -/
def fmtTwoDecimals (q : ℚ) : String :=
  (if ⌊q * 100 + 1 / 2⌋ < 0 then "-" else "")
    ++ toString ((⌊q * 100 + 1 / 2⌋ : ℤ).natAbs / 100) ++ "."
    ++ pad2 ((⌊q * 100 + 1 / 2⌋ : ℤ).natAbs % 100)

/-- Rust `impl Display for DecimalAttribute`:
`write!(f, "{:.2} ({:.2}%)", current, current_percentage() * 100.0)`. -/
def DecimalAttribute.display (a : DecimalAttribute) : String :=
  fmtTwoDecimals a.current ++ " (" ++ fmtTwoDecimals (a.current_percentage * 100) ++ "%)"

/-- Rust `impl Display for IntegerAttribute`:
`write!(f, "{} ({:.2}%)", current, current_percentage())` — the current value
is printed as a plain integer and the percentage is NOT multiplied by 100.
A non-finite `f32` percentage (modelled `none`) would print as an `inf`/`NaN`
token, which is outside this model. -/
def IntegerAttribute.display (a : IntegerAttribute) : String :=
  toString a.current ++ " (" ++
    (match a.current_percentage with
      | some q => fmtTwoDecimals q
      | none => "non-finite") ++ "%)"

/-! ## Helper lemmas -/

theorem DecimalAttribute.inv_mkD (c mn mx : ℚ) (h1 : mn ≤ c) (h2 : c ≤ mx) :
    (DecimalAttribute.mk c mn mx).Inv := ⟨h1, h2⟩

theorem DecimalAttribute.inv_mk_clampD (x mn mx : ℚ) (h : mn ≤ mx) :
    (DecimalAttribute.mk (clampQ x mn mx) mn mx).Inv :=
  ⟨(clampQ_le x mn mx h).1, (clampQ_le x mn mx h).2⟩

theorem IntegerAttribute.inv_mkI (mx mn c : ℤ) (h1 : mn ≤ c) (h2 : c ≤ mx) :
    (IntegerAttribute.mk mx mn c).Inv := ⟨h1, h2⟩

theorem IntegerAttribute.inv_mk_clampI (x mn mx : ℤ) (h : mn ≤ mx) :
    (IntegerAttribute.mk mx mn (clampI x mn mx)).Inv :=
  ⟨(clampI_le x mn mx h).1, (clampI_le x mn mx h).2⟩

/-! ## Claims -/

/-- C1 (amended).  The claim as stated fails at construction:
`DecimalAttribute::new` with a negative value gives `min = 0 > max`, and
`DecimalAttribute::as_defined` stores the given value without clamping it.
What holds is: `IntegerAttribute::new` and `DecimalAttribute::with_min_and_max`
establish `min ≤ current ≤ max` on success; `DecimalAttribute::new`
establishes it when the value is nonnegative; `as_defined` establishes it
when the given value already lies in `[min, max]`; and every setter and
arithmetic operator preserves it. -/
theorem C1_invariant_clamped_ops :
    (∀ mn mx c a, IntegerAttribute.new mn mx c = .ok a → a.Inv)
    ∧ (∀ v : ℚ, 0 ≤ v → (DecimalAttribute.new v).Inv)
    ∧ (∀ mn mx a, DecimalAttribute.with_min_and_max mn mx = .ok a → a.Inv)
    ∧ (∀ v mn mx a, DecimalAttribute.as_defined v mn mx = .ok a →
        mn ≤ v → v ≤ mx → a.Inv)
    ∧ (∀ a : DecimalAttribute, a.Inv → ∀ q mx2 : ℚ,
        (a.add_f64 q).Inv ∧ (a.add_f32 q).Inv
        ∧ (a.add_assign_f64 q).Inv ∧ (a.add_assign_f32 q).Inv
        ∧ (a.sub_f64 q).Inv ∧ (a.sub_f32 q).Inv
        ∧ (a.sub_assign_f64 q).Inv ∧ (a.sub_assign_f32 q).Inv
        ∧ (a.mul_f64 q).Inv ∧ (a.mul_f32 q).Inv
        ∧ (a.mul_assign_f64 q).Inv ∧ (a.mul_assign_f32 q).Inv
        ∧ (a.div_f64 q).Inv ∧ (a.div_f32 q).Inv
        ∧ (a.div_assign_f64 q).Inv ∧ (a.div_assign_f32 q).Inv
        ∧ (a.rem_f64 q).Inv ∧ (a.rem_f32 q).Inv
        ∧ (a.rem_assign_f64 q).Inv ∧ (a.rem_assign_f32 q).Inv
        ∧ a.neg.Inv ∧ (a.set_current q).Inv ∧ (a.set_value q).Inv
        ∧ (∀ b, a.set_min q = .ok b → b.Inv)
        ∧ (∀ b, a.set_max q = .ok b → b.Inv)
        ∧ (∀ b, a.set_min_max q mx2 = .ok b → b.Inv))
    ∧ (∀ a : IntegerAttribute, a.Inv → ∀ r : ℤ,
        (a.add_i32 r).Inv ∧ (a.add_assign_i32 r).Inv
        ∧ (a.sub_i32 r).Inv ∧ (a.sub_assign_i32 r).Inv
        ∧ (a.mul_i32 r).Inv ∧ (a.mul_assign_i32 r).Inv
        ∧ (∀ b, a.div_i32 r = some b → b.Inv)
        ∧ (∀ b, a.div_assign_i32 r = some b → b.Inv)
        ∧ (a.add_u32 r).Inv ∧ (a.sub_u32 r).Inv
        ∧ (a.mul_u32 r).Inv ∧ (a.div_u32 r).Inv
        ∧ (a.set_current r).Inv ∧ (a.set_current_value r).Inv
        ∧ (∀ b, a.set_min r = .ok b → b.Inv)
        ∧ (∀ b, a.set_max r = .ok b → b.Inv)
        ∧ (∀ b, a.set_min_value r = .ok b → b.Inv)
        ∧ (∀ b, a.set_max_value r = .ok b → b.Inv)) := by
  refine ⟨?_, ?_, ?_, ?_, ?_, ?_⟩
  · intro mn mx c a h
    unfold IntegerAttribute.new at h
    split at h
    · simp at h
    · rename_i hng
      injection h with h
      subst h
      exact IntegerAttribute.inv_mk_clampI _ _ _ (le_of_not_lt hng)
  · intro v hv
    exact ⟨hv, le_refl v⟩
  · intro mn mx a h
    unfold DecimalAttribute.with_min_and_max DecimalAttribute.as_defined at h
    split at h
    · simp at h
    · rename_i hng
      injection h with h
      subst h
      exact ⟨le_of_not_lt hng, le_refl mx⟩
  · intro v mn mx a h hv1 hv2
    unfold DecimalAttribute.as_defined at h
    split at h
    · simp at h
    · injection h with h
      subst h
      exact ⟨hv1, hv2⟩
  · intro a hI q mx2
    have hmm : a.min ≤ a.max := le_trans hI.1 hI.2
    refine ⟨DecimalAttribute.inv_mk_clampD _ _ _ hmm, DecimalAttribute.inv_mk_clampD _ _ _ hmm,
      DecimalAttribute.inv_mk_clampD _ _ _ hmm, DecimalAttribute.inv_mk_clampD _ _ _ hmm,
      DecimalAttribute.inv_mk_clampD _ _ _ hmm, DecimalAttribute.inv_mk_clampD _ _ _ hmm,
      DecimalAttribute.inv_mk_clampD _ _ _ hmm, DecimalAttribute.inv_mk_clampD _ _ _ hmm,
      DecimalAttribute.inv_mk_clampD _ _ _ hmm, DecimalAttribute.inv_mk_clampD _ _ _ hmm,
      DecimalAttribute.inv_mk_clampD _ _ _ hmm, DecimalAttribute.inv_mk_clampD _ _ _ hmm,
      ?_, ?_, ?_, ?_, ?_, ?_, ?_, ?_,
      DecimalAttribute.inv_mk_clampD _ _ _ hmm, DecimalAttribute.inv_mk_clampD _ _ _ hmm,
      DecimalAttribute.inv_mk_clampD _ _ _ hmm, ?_, ?_, ?_⟩
    · unfold DecimalAttribute.div_f64
      split
      · exact hI
      · exact DecimalAttribute.inv_mk_clampD _ _ _ hmm
    · unfold DecimalAttribute.div_f32
      split
      · exact hI
      · exact DecimalAttribute.inv_mk_clampD _ _ _ hmm
    · unfold DecimalAttribute.div_assign_f64
      split
      · exact hI
      · exact DecimalAttribute.inv_mk_clampD _ _ _ hmm
    · unfold DecimalAttribute.div_assign_f32
      split
      · exact hI
      · exact DecimalAttribute.inv_mk_clampD _ _ _ hmm
    · unfold DecimalAttribute.rem_f64
      split
      · exact hI
      · exact DecimalAttribute.inv_mk_clampD _ _ _ hmm
    · unfold DecimalAttribute.rem_f32
      split
      · exact hI
      · exact DecimalAttribute.inv_mk_clampD _ _ _ hmm
    · unfold DecimalAttribute.rem_assign_f64
      split
      · exact hI
      · exact DecimalAttribute.inv_mk_clampD _ _ _ hmm
    · unfold DecimalAttribute.rem_assign_f32
      split
      · exact hI
      · exact DecimalAttribute.inv_mk_clampD _ _ _ hmm
    · intro b h
      unfold DecimalAttribute.set_min at h
      split at h
      · simp at h
      · rename_i hng
        injection h with h
        subst h
        exact ⟨le_max_right _ _, max_le hI.2 (le_of_not_lt hng)⟩
    · intro b h
      unfold DecimalAttribute.set_max at h
      split at h
      · simp at h
      · rename_i hng
        injection h with h
        subst h
        exact ⟨le_min hI.1 (le_of_not_lt hng), min_le_right _ _⟩
    · intro b h
      unfold DecimalAttribute.set_min_max at h
      split at h
      · simp at h
      · rename_i hng
        injection h with h
        subst h
        exact DecimalAttribute.inv_mk_clampD _ _ _ (le_of_not_lt hng)
  · intro a hI r
    have hmm : a.min ≤ a.max := le_trans hI.1 hI.2
    refine ⟨IntegerAttribute.inv_mk_clampI _ _ _ hmm, IntegerAttribute.inv_mk_clampI _ _ _ hmm,
      IntegerAttribute.inv_mk_clampI _ _ _ hmm, IntegerAttribute.inv_mk_clampI _ _ _ hmm,
      IntegerAttribute.inv_mk_clampI _ _ _ hmm, IntegerAttribute.inv_mk_clampI _ _ _ hmm,
      ?_, ?_, ?_, ?_, ?_, ?_,
      IntegerAttribute.inv_mk_clampI _ _ _ hmm, IntegerAttribute.inv_mk_clampI _ _ _ hmm,
      ?_, ?_, ?_, ?_⟩
    · intro b h
      unfold IntegerAttribute.div_i32 at h
      split at h
      · simp at h
      · injection h with h
        subst h
        exact IntegerAttribute.inv_mk_clampI _ _ _ hmm
    · intro b h
      unfold IntegerAttribute.div_assign_i32 at h
      split at h
      · simp at h
      · injection h with h
        subst h
        exact IntegerAttribute.inv_mk_clampI _ _ _ hmm
    · unfold IntegerAttribute.add_u32
      split
      · exact ⟨hmm, le_refl _⟩
      · exact IntegerAttribute.inv_mk_clampI _ _ _ hmm
    · unfold IntegerAttribute.sub_u32
      split
      · exact IntegerAttribute.inv_mk_clampI _ _ _ hmm
      · exact IntegerAttribute.inv_mk_clampI _ _ _ hmm
    · unfold IntegerAttribute.mul_u32
      split
      · split
        · exact ⟨le_refl _, hmm⟩
        · split
          · exact hI
          · exact ⟨hmm, le_refl _⟩
      · exact IntegerAttribute.inv_mk_clampI _ _ _ hmm
    · unfold IntegerAttribute.div_u32
      split
      · exact IntegerAttribute.inv_mk_clampI _ _ _ hmm
      · exact IntegerAttribute.inv_mk_clampI _ _ _ hmm
    · intro b h
      by_cases hc : a.max = 0 ∧ a.min = 0
      · simp only [IntegerAttribute.set_min, if_pos hc] at h
        split at h
        · simp at h
        · rename_i hng
          injection h with h
          subst h
          exact IntegerAttribute.inv_mk_clampI _ _ _ (le_of_not_lt hng)
      · simp only [IntegerAttribute.set_min, if_neg hc] at h
        split at h
        · simp at h
        · rename_i hng
          injection h with h
          subst h
          exact IntegerAttribute.inv_mk_clampI _ _ _ (le_of_not_lt hng)
    · intro b h
      by_cases hc : a.current = 0
      · simp only [IntegerAttribute.set_max, if_pos hc] at h
        split at h
        · simp at h
        · rename_i hng
          injection h with h
          subst h
          exact IntegerAttribute.inv_mk_clampI _ _ _ (le_of_not_lt hng)
      · simp only [IntegerAttribute.set_max, if_neg hc] at h
        split at h
        · simp at h
        · rename_i hng
          injection h with h
          subst h
          exact IntegerAttribute.inv_mk_clampI _ _ _ (le_of_not_lt hng)
    · intro b h
      unfold IntegerAttribute.set_min_value at h
      split at h
      · simp at h
      · rename_i hng
        injection h with h
        subst h
        exact IntegerAttribute.inv_mk_clampI _ _ _ (le_of_not_lt hng)
    · intro b h
      unfold IntegerAttribute.set_max_value at h
      split at h
      · simp at h
      · rename_i hng
        injection h with h
        subst h
        exact IntegerAttribute.inv_mk_clampI _ _ _ (le_of_not_lt hng)

/-- C1 counterexample: the claim says `min ≤ current ≤ max` holds after every
operation, construction via `new` included; but `DecimalAttribute::new(-5.0)`
yields `current = -5, min = 0, max = -5`, violating `min ≤ current`. -/
theorem C1_counterexample : ¬ (DecimalAttribute.new (-5)).Inv := by
  decide

/-- C1 witness: the amended theorem applied at concrete attributes. -/
theorem C1_witness :
    ((DecimalAttribute.mk 5 0 10).add_f64 3).Inv
    ∧ ((IntegerAttribute.mk 10 0 5).add_i32 3).Inv := by
  have h := C1_invariant_clamped_ops
  exact ⟨(h.2.2.2.2.1 (DecimalAttribute.mk 5 0 10) (by decide) 3 0).1,
         (h.2.2.2.2.2 (IntegerAttribute.mk 10 0 5) (by decide) 3).1⟩

/-- C2 (amended).  The zero guard is real for the decimal attribute only:
division and remainder by zero (`f64` and `f32`, plain and assigning forms)
return the attribute unchanged.  For the integer attribute, `Div<u32>` by
zero sets `current` to `0` clamped into the bounds (not a no-op), and
`Div<i32>`/`DivAssign<i32>` have no zero guard at all (a zero divisor panics,
modelled as `none`); no remainder operator exists for the integer attribute
in the source. -/
theorem C2_zero_guard :
    (∀ a : DecimalAttribute,
        a.div_f64 0 = a ∧ a.div_f32 0 = a
        ∧ a.div_assign_f64 0 = a ∧ a.div_assign_f32 0 = a
        ∧ a.rem_f64 0 = a ∧ a.rem_f32 0 = a
        ∧ a.rem_assign_f64 0 = a ∧ a.rem_assign_f32 0 = a)
    ∧ (∀ b : IntegerAttribute,
        b.div_u32 0 = { b with current := clampI 0 b.min b.max }
        ∧ b.div_i32 0 = none ∧ b.div_assign_i32 0 = none) := by
  constructor
  · intro a
    refine ⟨?_, ?_, ?_, ?_, ?_, ?_, ?_, ?_⟩ <;>
      simp [DecimalAttribute.div_f64, DecimalAttribute.div_f32,
        DecimalAttribute.div_assign_f64, DecimalAttribute.div_assign_f32,
        DecimalAttribute.rem_f64, DecimalAttribute.rem_f32,
        DecimalAttribute.rem_assign_f64, DecimalAttribute.rem_assign_f32]
  · intro b
    refine ⟨?_, ?_, ?_⟩ <;>
      simp [IntegerAttribute.div_u32, IntegerAttribute.div_i32,
        IntegerAttribute.div_assign_i32]

/-- C2 counterexample: the claim covers the `u32` operand kind of the integer
attribute, but `IntegerAttribute { max: 5, min: 2, current: 5 } / 0u32` has
`current = clamp(0, 2, 5) = 2`, not the unchanged `5`, even though
`min ≤ max` holds. -/
theorem C2_counterexample :
    (IntegerAttribute.mk 5 2 5).min ≤ (IntegerAttribute.mk 5 2 5).max
    ∧ (IntegerAttribute.mk 5 2 5).div_u32 0 ≠ IntegerAttribute.mk 5 2 5 := by
  decide

/-- C3 (amended).  All three bounds-validated constructors fail with a
`MinGreaterThanMax`-kind error carrying `(min, max)` exactly when
`min > max` (the `MaxLessThanMin` branch of `as_defined` is unreachable,
since its guard is the same condition).  On success `IntegerAttribute::new`
stores `current` clamped into `[min, max]` as the claim says, but the
decimal constructors (`as_defined` / `with_min_max_and_current`) store the
given value unclamped. -/
theorem C3_validated_constructors :
    (∀ mn mx c : ℤ, IntegerAttribute.new mn mx c =
        if mn > mx then .error (.minGreaterThanMax mn mx)
        else .ok (IntegerAttribute.mk mx mn (clampI c mn mx)))
    ∧ (∀ v mn mx : ℚ, DecimalAttribute.as_defined v mn mx =
        if mn > mx then .error (.decimalMinGreaterThanMax mn mx)
        else .ok (DecimalAttribute.mk v mn mx))
    ∧ (∀ v mn mx : ℚ, DecimalAttribute.with_min_max_and_current v mn mx =
        DecimalAttribute.as_defined v mn mx) := by
  refine ⟨?_, ?_, fun v mn mx => rfl⟩
  · intro mn mx c
    unfold IntegerAttribute.new
    split <;> rfl
  · intro v mn mx
    unfold DecimalAttribute.as_defined
    split <;> rfl

/-- C3 counterexample: `DecimalAttribute::as_defined(50.0, 0.0, 10.0)`
succeeds with `current = 50`, not the claimed clamped value `10`. -/
theorem C3_counterexample :
    DecimalAttribute.as_defined 50 0 10 = .ok (DecimalAttribute.mk 50 0 10)
    ∧ clampQ 50 0 10 = 10
    ∧ (DecimalAttribute.mk 50 0 10).current ≠ clampQ 50 0 10 := by
  refine ⟨rfl, by norm_num [clampQ], by norm_num [clampQ]⟩

theorem wrap32_eq_self (n : ℤ) (h : inI32 n) : wrap32 n = n := by
  unfold wrap32
  unfold inI32 i32Min i32Max at h
  omega

/-- C4 (amended).  The decimal attribute computes
`(current - min) / (max - min)` with `0` on a zero denominator, and the
`with_min_and_max(-100, 100)` / `set_value(0)` scenario gives `1/2`.  The
integer attribute matches the claimed formula only when `min ≥ 0` and
`max ≠ min` (for an attribute with `i32` fields satisfying the invariant,
so that the raw differences do not overflow); when `min < 0` it computes
`(current + min) / (max + min)` instead — with wrapping `i32` additions,
equal to the exact sums when those stay in range — and it has no
zero-denominator guard (the `f32` division yields a non-finite value,
modelled as `none`, when the denominator is zero). -/
theorem C4_current_percentage :
    (∀ a : DecimalAttribute, a.current_percentage =
        if a.max - a.min = 0 then 0 else (a.current - a.min) / (a.max - a.min))
    ∧ (∀ a, DecimalAttribute.with_min_and_max (-100) 100 = .ok a →
        (a.set_value 0).current_percentage = 1 / 2)
    ∧ (∀ a : IntegerAttribute, a.Inv →
        inI32 a.min → inI32 a.max → inI32 a.current →
        0 ≤ a.min → a.max ≠ a.min →
        a.current_percentage =
          some (((a.current : ℚ) - (a.min : ℚ)) / ((a.max : ℚ) - (a.min : ℚ))))
    ∧ (∀ a : IntegerAttribute, a.min < 0 →
        inI32 (a.current + a.min) → inI32 (a.max + a.min) →
        (a.max : ℚ) + (a.min : ℚ) ≠ 0 →
        a.current_percentage =
          some (((a.current : ℚ) + (a.min : ℚ)) / ((a.max : ℚ) + (a.min : ℚ)))) := by
  refine ⟨fun a => rfl, ?_, ?_, ?_⟩
  · intro a h
    have heq : DecimalAttribute.with_min_and_max (-100) 100 =
        .ok (DecimalAttribute.mk 100 (-100) 100) := rfl
    rw [heq] at h
    injection h with h
    subst h
    norm_num [DecimalAttribute.set_value, DecimalAttribute.set_current,
      DecimalAttribute.current_percentage, clampQ]
  · intro a hI hmn hmx hcu hmin hne
    unfold IntegerAttribute.current_percentage
    rcases lt_or_eq_of_le hmin with h | h
    · rcases hI with ⟨hI1, hI2⟩
      rw [if_neg (by omega), if_neg (by omega)]
      have hw1 : wrap32 (a.current - a.min) = a.current - a.min := by
        refine wrap32_eq_self _ ?_
        unfold inI32 i32Min i32Max at hmn hmx hcu ⊢
        omega
      have hw2 : wrap32 (a.max - a.min) = a.max - a.min := by
        refine wrap32_eq_self _ ?_
        unfold inI32 i32Min i32Max at hmn hmx hcu ⊢
        omega
      rw [hw1, hw2, if_neg (by omega : ¬ a.max - a.min = 0)]
      push_cast
      rfl
    · rw [if_neg (by omega), if_pos h.symm]
      rw [if_neg (by omega : ¬ a.max = 0), ← h]
      norm_num
  · intro a hlt h1 h2 hne
    unfold IntegerAttribute.current_percentage
    rw [if_pos hlt, wrap32_eq_self _ h1, wrap32_eq_self _ h2]
    have hz : a.max + a.min ≠ 0 := by
      intro hc
      exact hne (by exact_mod_cast congrArg (fun z : ℤ => (z : ℚ)) hc)
    rw [if_neg hz]
    push_cast
    rfl

/-- C4 counterexample: the integer attribute `{ min: -50, max: 100,
current: 0 }` has `current_percentage() = (0 + -50) / (100 + -50) = -1`
(the sums stay in the `i32` range and the division is exact in `f32`),
while the claimed formula `(current - min) / (max - min)` gives `1/3`. -/
theorem C4_counterexample :
    (IntegerAttribute.mk 100 (-50) 0).current_percentage = some (-1)
    ∧ (((IntegerAttribute.mk 100 (-50) 0).current : ℚ) -
          ((IntegerAttribute.mk 100 (-50) 0).min : ℚ)) /
        (((IntegerAttribute.mk 100 (-50) 0).max : ℚ) -
          ((IntegerAttribute.mk 100 (-50) 0).min : ℚ)) = 1 / 3
    ∧ (some (-1) : Option ℚ) ≠ some (1 / 3) := by
  refine ⟨?_, by norm_num, by norm_num⟩
  norm_num [IntegerAttribute.current_percentage, wrap32]

/-- C4 witness: the amended theorem applied at concrete attributes. -/
theorem C4_witness :
    ((DecimalAttribute.mk 100 (-100) 100).set_value 0).current_percentage = 1 / 2
    ∧ (IntegerAttribute.mk 100 0 25).current_percentage = some (1 / 4)
    ∧ (IntegerAttribute.mk 100 (-50) 25).current_percentage = some (-1 / 2) := by
  have h := C4_current_percentage
  refine ⟨h.2.1 (DecimalAttribute.mk 100 (-100) 100) rfl, ?_, ?_⟩
  · have h3 := h.2.2.1 (IntegerAttribute.mk 100 0 25) (by decide)
      (by decide) (by decide) (by decide) (by decide) (by decide)
    rw [h3]
    norm_num
  · have h4 := h.2.2.2 (IntegerAttribute.mk 100 (-50) 25) (by decide)
      (by decide) (by decide) (by norm_num)
    rw [h4]
    norm_num

theorem clampI_hi (lo hi : ℤ) (h : lo ≤ hi) : clampI hi lo hi = hi := by
  unfold clampI
  split
  · omega
  · split <;> rfl

theorem clampI_lo (lo hi : ℤ) (h : lo ≤ hi) : clampI lo lo hi = lo := by
  unfold clampI
  split
  · rfl
  · split
    · omega
    · rfl

/-- C5 (confirmed): on the integer attribute, `Add<i32>`/`AddAssign<i32>` use
checked addition and fall back to `max` when `current + rhs` leaves the `i32`
range; `Sub<i32>`/`SubAssign<i32>` symmetrically fall back to `min`.  The
fallback is then clamped, which leaves it unchanged since `min ≤ max`; the
operations are total (no wrap, no panic). -/
theorem C5_checked_saturation :
    ∀ (a : IntegerAttribute) (r : ℤ), a.Inv →
      inI32 a.current → inI32 r →
      (¬ inI32 (a.current + r) →
        (a.add_i32 r).current = a.max ∧ (a.add_assign_i32 r).current = a.max)
      ∧ (¬ inI32 (a.current - r) →
        (a.sub_i32 r).current = a.min ∧ (a.sub_assign_i32 r).current = a.min) := by
  intro a r hI hc hr
  have hmm : a.min ≤ a.max := le_trans hI.1 hI.2
  constructor
  · intro hov
    have hnone : checkedAdd a.current r = none := by
      unfold checkedAdd
      rw [if_neg hov]
    constructor <;>
    · show clampI ((checkedAdd a.current r).getD a.max) a.min a.max = a.max
      rw [hnone]
      exact clampI_hi a.min a.max hmm
  · intro hov
    have hnone : checkedSub a.current r = none := by
      unfold checkedSub
      rw [if_neg hov]
    constructor <;>
    · show clampI ((checkedSub a.current r).getD a.min) a.min a.max = a.min
      rw [hnone]
      exact clampI_lo a.min a.max hmm

/-- C5 witness: at `{min: 0, max: 100, current: 100}`, adding `i32::MAX`
overflows and yields `current = max = 100`; subtracting `-2147483600`
overflows and yields `current = min = 0`. -/
theorem C5_witness :
    ((IntegerAttribute.mk 100 0 100).add_i32 2147483647).current = 100
    ∧ ((IntegerAttribute.mk 100 0 100).sub_i32 (-2147483600)).current = 0 := by
  have h := C5_checked_saturation (IntegerAttribute.mk 100 0 100)
  exact ⟨(h 2147483647 (by decide) (by decide) (by decide) |>.1 (by decide)).1,
         (h (-2147483600) (by decide) (by decide) (by decide) |>.2 (by decide)).1⟩

/-- C6 (confirmed): on the integer attribute, for a `u32` operand above
`i32::MAX`: addition yields `current = max`; subtraction behaves as checked
subtraction of `i32::MAX` (clamped, saturating to `min` on overflow);
multiplication yields `max`/`min`/unchanged by the sign of `current`; and
division by such an operand or by zero yields `0` clamped into the bounds. -/
theorem C6_u32_saturation :
    ∀ (a : IntegerAttribute) (r : ℤ), a.Inv → 0 ≤ r → r < 2 ^ 32 →
      (i32Max < r →
        (a.add_u32 r).current = a.max
        ∧ (inI32 (a.current - i32Max) →
            (a.sub_u32 r).current = clampI (a.current - i32Max) a.min a.max)
        ∧ (¬ inI32 (a.current - i32Max) → (a.sub_u32 r).current = a.min)
        ∧ (0 < a.current → (a.mul_u32 r).current = a.max)
        ∧ (a.current < 0 → (a.mul_u32 r).current = a.min)
        ∧ (a.current = 0 → (a.mul_u32 r).current = a.current))
      ∧ (r = 0 ∨ i32Max < r → (a.div_u32 r).current = clampI 0 a.min a.max) := by
  intro a r hI hr0 hr32
  have hmm : a.min ≤ a.max := le_trans hI.1 hI.2
  constructor
  · intro hbig
    refine ⟨?_, ?_, ?_, ?_, ?_, ?_⟩
    · unfold IntegerAttribute.add_u32
      rw [if_pos hbig]
    · intro hin
      unfold IntegerAttribute.sub_u32
      rw [if_pos hbig]
      show clampI ((checkedSub a.current i32Max).getD a.min) a.min a.max = _
      unfold checkedSub
      rw [if_pos hin]
      rfl
    · intro hout
      unfold IntegerAttribute.sub_u32
      rw [if_pos hbig]
      show clampI ((checkedSub a.current i32Max).getD a.min) a.min a.max = _
      unfold checkedSub
      rw [if_neg hout]
      exact clampI_lo a.min a.max hmm
    · intro hpos
      unfold IntegerAttribute.mul_u32
      rw [if_pos hbig, if_neg (by omega), if_neg (by omega)]
    · intro hneg
      unfold IntegerAttribute.mul_u32
      rw [if_pos hbig, if_pos hneg]
    · intro hzero
      unfold IntegerAttribute.mul_u32
      rw [if_pos hbig, if_neg (by omega), if_pos hzero]
  · intro hcond
    unfold IntegerAttribute.div_u32
    rw [if_pos hcond]

/-- C6 witness: at `{min: -10, max: 10, current: 5}` with the out-of-range
operand `3000000000`, addition gives `10`, subtraction gives `-10`,
multiplication gives `10`, and division gives `0`. -/
theorem C6_witness :
    ((IntegerAttribute.mk 10 (-10) 5).add_u32 3000000000).current = 10
    ∧ ((IntegerAttribute.mk 10 (-10) 5).sub_u32 3000000000).current =
        clampI (5 - i32Max) (-10) 10
    ∧ ((IntegerAttribute.mk 10 (-10) 5).mul_u32 3000000000).current = 10
    ∧ ((IntegerAttribute.mk 10 (-10) 5).div_u32 3000000000).current =
        clampI 0 (-10) 10 := by
  have h := C6_u32_saturation (IntegerAttribute.mk 10 (-10) 5) 3000000000
    (by decide) (by decide) (by decide)
  have hbig : i32Max < (3000000000 : ℤ) := by decide
  exact ⟨(h.1 hbig).1, (h.1 hbig).2.1 (by decide), (h.1 hbig).2.2.2.1 (by decide),
         h.2 (Or.inr hbig)⟩

theorem clampI_eq_max (c m mx : ℤ) (_h1 : m ≤ mx) (h2 : c ≤ mx) :
    clampI c m mx = Max.max c m := by
  unfold clampI
  rcases lt_or_le c m with h | h
  · rw [if_pos h]
    exact (max_eq_right h.le).symm
  · rw [if_neg (not_lt.mpr h), if_neg (by omega)]
    exact (max_eq_left h).symm

/-- C7 (amended).  The claim holds verbatim for `DecimalAttribute::set_min`,
and for `IntegerAttribute::set_min_value` provided `current ≤ max` (its
re-clamp `clamp(current, m, max)` then equals `max(current, m)`).  It fails
for the builder-style `IntegerAttribute::set_min`: when both bounds are `0`
(the "uninitialised" state) it first sets `max` to the new minimum, so it
succeeds even with `m > max` and does NOT leave `max` unchanged, producing
`min = max = m` and `current` clamped to `m`; in every other state the
builder behaves like `set_min_value`. -/
theorem C7_set_min_behaviour :
    (∀ (a : DecimalAttribute) (m : ℚ),
      (a.max < m → a.set_min m = .error (.decimalMinGreaterThanMax m a.max))
      ∧ (m ≤ a.max → a.set_min m =
          .ok (DecimalAttribute.mk (Max.max a.current m) m a.max)))
    ∧ (∀ (a : IntegerAttribute) (m : ℤ),
      (a.max < m → a.set_min_value m = .error (.minGreaterThanMax m a.max))
      ∧ (m ≤ a.max → a.current ≤ a.max → a.set_min_value m =
          .ok (IntegerAttribute.mk a.max m (Max.max a.current m))))
    ∧ (∀ (a : IntegerAttribute) (m : ℤ), ¬(a.max = 0 ∧ a.min = 0) →
      (a.max < m → a.set_min m = .error (.minGreaterThanMax m a.max))
      ∧ (m ≤ a.max → a.current ≤ a.max → a.set_min m =
          .ok (IntegerAttribute.mk a.max m (Max.max a.current m))))
    ∧ (∀ (a : IntegerAttribute) (m : ℤ), a.max = 0 → a.min = 0 →
      a.set_min m = .ok (IntegerAttribute.mk m m (clampI a.current m m))) := by
  refine ⟨?_, ?_, ?_, ?_⟩
  · intro a m
    constructor
    · intro hgt
      unfold DecimalAttribute.set_min
      rw [if_pos hgt]
    · intro hle
      unfold DecimalAttribute.set_min
      rw [if_neg (not_lt.mpr hle)]
  · intro a m
    constructor
    · intro hgt
      unfold IntegerAttribute.set_min_value
      rw [if_pos hgt]
    · intro hle hcur
      unfold IntegerAttribute.set_min_value
      rw [if_neg (not_lt.mpr hle)]
      rw [show clampI a.current m a.max = Max.max a.current m from
        clampI_eq_max a.current m a.max hle hcur]
  · intro a m hc
    constructor
    · intro hgt
      simp only [IntegerAttribute.set_min, if_neg hc]
      rw [if_pos hgt]
    · intro hle hcur
      simp only [IntegerAttribute.set_min, if_neg hc]
      rw [if_neg (not_lt.mpr hle)]
      rw [show clampI a.current m a.max = Max.max a.current m from
        clampI_eq_max a.current m a.max hle hcur]
  · intro a m h0 h1
    simp only [IntegerAttribute.set_min, if_pos (And.intro h0 h1)]
    rw [if_neg (lt_irrefl m)]

/-- C7 counterexample: on the default integer attribute
`{max: 0, min: 0, current: 0}`, `set_min(5)` has `5 > max`, yet it succeeds
(the claim says it must fail) and changes `max` to `5` (the claim says `max`
is left unchanged). -/
theorem C7_counterexample :
    (IntegerAttribute.mk 0 0 0).set_min 5 = .ok (IntegerAttribute.mk 5 5 5)
    ∧ (IntegerAttribute.mk 0 0 0).max < 5 := by
  constructor
  · rfl
  · decide

/-- C7 witness: the amended theorem applied at concrete attributes. -/
theorem C7_witness :
    (DecimalAttribute.mk 5 0 10).set_min 2 = .ok (DecimalAttribute.mk 5 2 10)
    ∧ (IntegerAttribute.mk 10 0 5).set_min_value 7 =
        .ok (IntegerAttribute.mk 10 7 7) := by
  have h := C7_set_min_behaviour
  constructor
  · rw [h.1 (DecimalAttribute.mk 5 0 10) 2 |>.2 (by norm_num)]
    rw [max_eq_left (by norm_num : (2 : ℚ) ≤ 5)]
  · rw [h.2.1 (IntegerAttribute.mk 10 0 5) 7 |>.2 (by decide) (by decide)]
    rfl

/-- C8 (amended).  The claimed rendering is the decimal attribute's:
`"{:.2} ({:.2}%)"` with the percentage multiplied by 100, giving
`"19.00 (95.00%)"` for `new(20.0)` minus `1.0`.  The integer attribute
instead renders `current` as a plain integer (no decimal places) and the raw
`current_percentage()` fraction (NOT multiplied by 100) to two decimal
places, e.g. `"100 (1.00%)"` for a full attribute with bounds `[0, 100]`
(as the repository's own test expects). -/
theorem C8_display_format :
    ((DecimalAttribute.new 20).sub_f64 1).display = "19.00 (95.00%)"
    ∧ (∀ (a : IntegerAttribute) (q : ℚ), a.current_percentage = some q →
        a.display = toString a.current ++ " (" ++ fmtTwoDecimals q ++ "%)")
    ∧ (IntegerAttribute.mk 100 0 100).display = "100 (1.00%)" := by
  refine ⟨?_, ?_, ?_⟩
  · have ha : (DecimalAttribute.new 20).sub_f64 1 = DecimalAttribute.mk 19 0 20 := by
      norm_num [DecimalAttribute.new, DecimalAttribute.sub_f64, clampQ]
    rw [ha]
    have hp : (DecimalAttribute.mk 19 0 20).current_percentage = 19 / 20 := by
      norm_num [DecimalAttribute.current_percentage]
    unfold DecimalAttribute.display
    rw [hp]
    have h1 : fmtTwoDecimals 19 = "19.00" := by
      unfold fmtTwoDecimals
      rw [show (⌊(19 : ℚ) * 100 + 1 / 2⌋ : ℤ) = 1900 from by norm_num]
      decide
    have h2 : fmtTwoDecimals (19 / 20 * 100) = "95.00" := by
      unfold fmtTwoDecimals
      rw [show (⌊(19 / 20 * 100 : ℚ) * 100 + 1 / 2⌋ : ℤ) = 9500 from by norm_num]
      decide
    rw [show (DecimalAttribute.mk 19 0 20).current = (19 : ℚ) from rfl, h1, h2]
    rfl
  · intro a q h
    unfold IntegerAttribute.display
    rw [h]
  · have hp : (IntegerAttribute.mk 100 0 100).current_percentage = some 1 := by
      norm_num [IntegerAttribute.current_percentage]
    unfold IntegerAttribute.display
    rw [hp]
    have h1 : fmtTwoDecimals 1 = "1.00" := by
      unfold fmtTwoDecimals
      rw [show (⌊(1 : ℚ) * 100 + 1 / 2⌋ : ℤ) = 100 from by norm_num]
      decide
    show toString (100 : ℤ) ++ " (" ++ fmtTwoDecimals 1 ++ "%)" = "100 (1.00%)"
    rw [h1]
    rfl

/-- C8 counterexample: for the integer attribute with
`min = 0, max = 100, current = 100` (which satisfies the invariant), the
claim predicts the rendering `"100.00 (100.00%)"`, but the code renders
`"100 (1.00%)"`. -/
theorem C8_counterexample :
    (IntegerAttribute.mk 100 0 100).display = "100 (1.00%)"
    ∧ "100 (1.00%)" ≠ "100.00 (100.00%)" := by
  constructor
  · have hp : (IntegerAttribute.mk 100 0 100).current_percentage = some 1 := by
      norm_num [IntegerAttribute.current_percentage]
    unfold IntegerAttribute.display
    rw [hp]
    have h1 : fmtTwoDecimals 1 = "1.00" := by
      unfold fmtTwoDecimals
      rw [show (⌊(1 : ℚ) * 100 + 1 / 2⌋ : ℤ) = 100 from by norm_num]
      decide
    show toString (100 : ℤ) ++ " (" ++ fmtTwoDecimals 1 ++ "%)" = "100 (1.00%)"
    rw [h1]
    rfl
  · decide

/-- C8 witness: the amended theorem's integer-format clause applied at a
half-full attribute. -/
theorem C8_witness :
    (IntegerAttribute.mk 100 0 50).display =
      toString (IntegerAttribute.mk 100 0 50).current
        ++ " (" ++ fmtTwoDecimals (1 / 2) ++ "%)" :=
  C8_display_format.2.1 (IntegerAttribute.mk 100 0 50) (1 / 2)
    (by norm_num [IntegerAttribute.current_percentage])

/-- The error variant produced by a fallible operation, when it fails, is
never a `ConversionError`. -/
def noConversionError {A : Type} : Except AttributeError A → Prop
  | .error e => ¬ e.isConversionError
  | .ok _ => True

/-- C9 (confirmed): the conversion of an integer attribute to `u32` fails
with a `ConversionError` exactly when `current < 0` and otherwise returns
`current` unchanged; every other fallible operation of the library
(constructors and bounds setters, on both attribute kinds) only ever
produces `MinGreaterThanMax`/`MaxLessThanMin`-kind errors, never a
`ConversionError`. -/
theorem C9_conversion_error_only_try_from :
    (∀ a : IntegerAttribute, a.try_from_u32 =
        if a.current < 0 then
          .error (.conversionError
            "Current value is negative when trying to convert to u32.")
        else .ok a.current)
    ∧ (∀ v mn mx : ℚ,
        noConversionError (DecimalAttribute.as_defined v mn mx)
        ∧ noConversionError (DecimalAttribute.with_min_max_and_current v mn mx)
        ∧ noConversionError (DecimalAttribute.with_min_and_max mn mx))
    ∧ (∀ (a : DecimalAttribute) (m mx2 : ℚ),
        noConversionError (a.set_min m)
        ∧ noConversionError (a.set_max m)
        ∧ noConversionError (a.set_min_max m mx2))
    ∧ (∀ mn mx c : ℤ, noConversionError (IntegerAttribute.new mn mx c))
    ∧ (∀ (a : IntegerAttribute) (m : ℤ),
        noConversionError (a.set_min m)
        ∧ noConversionError (a.set_max m)
        ∧ noConversionError (a.set_min_value m)
        ∧ noConversionError (a.set_max_value m)) := by
  refine ⟨fun a => rfl, ?_, ?_, ?_, ?_⟩
  · intro v mn mx
    refine ⟨?_, ?_, ?_⟩ <;>
    · simp only [DecimalAttribute.with_min_max_and_current,
        DecimalAttribute.with_min_and_max, DecimalAttribute.as_defined]
      repeat' split
      all_goals simp [noConversionError, AttributeError.isConversionError]
  · intro a m mx2
    refine ⟨?_, ?_, ?_⟩ <;>
    · simp only [DecimalAttribute.set_min, DecimalAttribute.set_max,
        DecimalAttribute.set_min_max]
      repeat' split
      all_goals simp [noConversionError, AttributeError.isConversionError]
  · intro mn mx c
    unfold IntegerAttribute.new
    split <;> simp [noConversionError, AttributeError.isConversionError]
  · intro a m
    refine ⟨?_, ?_, ?_, ?_⟩ <;>
    · simp only [IntegerAttribute.set_min, IntegerAttribute.set_max,
        IntegerAttribute.set_min_value, IntegerAttribute.set_max_value]
      repeat' split
      all_goals simp [noConversionError, AttributeError.isConversionError]

/-- C10 (confirmed): every arithmetic operator (plain and assigning, every
operand kind) and every current-value setter leaves the `min` and `max`
fields unchanged, on both attribute kinds (stated under the clamp
precondition `min ≤ max`, under which the Rust operations complete). -/
theorem C10_frame_bounds_unchanged :
    (∀ a : DecimalAttribute, a.min ≤ a.max → ∀ q : ℚ,
        ((a.add_f64 q).min = a.min ∧ (a.add_f64 q).max = a.max)
        ∧ ((a.add_f32 q).min = a.min ∧ (a.add_f32 q).max = a.max)
        ∧ ((a.add_assign_f64 q).min = a.min ∧ (a.add_assign_f64 q).max = a.max)
        ∧ ((a.add_assign_f32 q).min = a.min ∧ (a.add_assign_f32 q).max = a.max)
        ∧ ((a.sub_f64 q).min = a.min ∧ (a.sub_f64 q).max = a.max)
        ∧ ((a.sub_f32 q).min = a.min ∧ (a.sub_f32 q).max = a.max)
        ∧ ((a.sub_assign_f64 q).min = a.min ∧ (a.sub_assign_f64 q).max = a.max)
        ∧ ((a.sub_assign_f32 q).min = a.min ∧ (a.sub_assign_f32 q).max = a.max)
        ∧ ((a.mul_f64 q).min = a.min ∧ (a.mul_f64 q).max = a.max)
        ∧ ((a.mul_f32 q).min = a.min ∧ (a.mul_f32 q).max = a.max)
        ∧ ((a.mul_assign_f64 q).min = a.min ∧ (a.mul_assign_f64 q).max = a.max)
        ∧ ((a.mul_assign_f32 q).min = a.min ∧ (a.mul_assign_f32 q).max = a.max)
        ∧ ((a.div_f64 q).min = a.min ∧ (a.div_f64 q).max = a.max)
        ∧ ((a.div_f32 q).min = a.min ∧ (a.div_f32 q).max = a.max)
        ∧ ((a.div_assign_f64 q).min = a.min ∧ (a.div_assign_f64 q).max = a.max)
        ∧ ((a.div_assign_f32 q).min = a.min ∧ (a.div_assign_f32 q).max = a.max)
        ∧ ((a.rem_f64 q).min = a.min ∧ (a.rem_f64 q).max = a.max)
        ∧ ((a.rem_f32 q).min = a.min ∧ (a.rem_f32 q).max = a.max)
        ∧ ((a.rem_assign_f64 q).min = a.min ∧ (a.rem_assign_f64 q).max = a.max)
        ∧ ((a.rem_assign_f32 q).min = a.min ∧ (a.rem_assign_f32 q).max = a.max)
        ∧ (a.neg.min = a.min ∧ a.neg.max = a.max)
        ∧ ((a.set_current q).min = a.min ∧ (a.set_current q).max = a.max)
        ∧ ((a.set_value q).min = a.min ∧ (a.set_value q).max = a.max))
    ∧ (∀ b : IntegerAttribute, b.min ≤ b.max → ∀ r : ℤ,
        ((b.add_i32 r).min = b.min ∧ (b.add_i32 r).max = b.max)
        ∧ ((b.add_assign_i32 r).min = b.min ∧ (b.add_assign_i32 r).max = b.max)
        ∧ ((b.sub_i32 r).min = b.min ∧ (b.sub_i32 r).max = b.max)
        ∧ ((b.sub_assign_i32 r).min = b.min ∧ (b.sub_assign_i32 r).max = b.max)
        ∧ ((b.mul_i32 r).min = b.min ∧ (b.mul_i32 r).max = b.max)
        ∧ ((b.mul_assign_i32 r).min = b.min ∧ (b.mul_assign_i32 r).max = b.max)
        ∧ (∀ c, b.div_i32 r = some c → c.min = b.min ∧ c.max = b.max)
        ∧ (∀ c, b.div_assign_i32 r = some c → c.min = b.min ∧ c.max = b.max)
        ∧ ((b.add_u32 r).min = b.min ∧ (b.add_u32 r).max = b.max)
        ∧ ((b.sub_u32 r).min = b.min ∧ (b.sub_u32 r).max = b.max)
        ∧ ((b.mul_u32 r).min = b.min ∧ (b.mul_u32 r).max = b.max)
        ∧ ((b.div_u32 r).min = b.min ∧ (b.div_u32 r).max = b.max)
        ∧ ((b.set_current r).min = b.min ∧ (b.set_current r).max = b.max)
        ∧ ((b.set_current_value r).min = b.min
            ∧ (b.set_current_value r).max = b.max)) := by
  constructor
  · intro a _ q
    refine ⟨⟨rfl, rfl⟩, ⟨rfl, rfl⟩, ⟨rfl, rfl⟩, ⟨rfl, rfl⟩,
      ⟨rfl, rfl⟩, ⟨rfl, rfl⟩, ⟨rfl, rfl⟩, ⟨rfl, rfl⟩,
      ⟨rfl, rfl⟩, ⟨rfl, rfl⟩, ⟨rfl, rfl⟩, ⟨rfl, rfl⟩,
      ?_, ?_, ?_, ?_, ?_, ?_, ?_, ?_,
      ⟨rfl, rfl⟩, ⟨rfl, rfl⟩, ⟨rfl, rfl⟩⟩ <;>
    · simp only [DecimalAttribute.div_f64, DecimalAttribute.div_f32,
        DecimalAttribute.div_assign_f64, DecimalAttribute.div_assign_f32,
        DecimalAttribute.rem_f64, DecimalAttribute.rem_f32,
        DecimalAttribute.rem_assign_f64, DecimalAttribute.rem_assign_f32]
      split <;> exact ⟨rfl, rfl⟩
  · intro b _ r
    refine ⟨⟨rfl, rfl⟩, ⟨rfl, rfl⟩, ⟨rfl, rfl⟩, ⟨rfl, rfl⟩,
      ⟨rfl, rfl⟩, ⟨rfl, rfl⟩, ?_, ?_, ?_, ?_, ?_, ?_, ⟨rfl, rfl⟩, ⟨rfl, rfl⟩⟩
    · intro c h
      unfold IntegerAttribute.div_i32 at h
      split at h
      · simp at h
      · injection h with h
        subst h
        exact ⟨rfl, rfl⟩
    · intro c h
      unfold IntegerAttribute.div_assign_i32 at h
      split at h
      · simp at h
      · injection h with h
        subst h
        exact ⟨rfl, rfl⟩
    · unfold IntegerAttribute.add_u32
      split <;> exact ⟨rfl, rfl⟩
    · unfold IntegerAttribute.sub_u32
      split <;> exact ⟨rfl, rfl⟩
    · unfold IntegerAttribute.mul_u32
      split
      · split
        · exact ⟨rfl, rfl⟩
        · split <;> exact ⟨rfl, rfl⟩
      · exact ⟨rfl, rfl⟩
    · unfold IntegerAttribute.div_u32
      split <;> exact ⟨rfl, rfl⟩

/-- C10 witness: the frame theorem applied at concrete attributes, the
`Div<i32>` clause included. -/
theorem C10_witness :
    (((DecimalAttribute.mk 7 0 10).mul_f64 3).min = 0
      ∧ ((DecimalAttribute.mk 7 0 10).mul_f64 3).max = 10)
    ∧ ((IntegerAttribute.mk 10 0 3).min = (IntegerAttribute.mk 10 0 7).min
      ∧ (IntegerAttribute.mk 10 0 3).max = (IntegerAttribute.mk 10 0 7).max) := by
  have hd := C10_frame_bounds_unchanged.1 (DecimalAttribute.mk 7 0 10) (by norm_num) 3
  have hi := C10_frame_bounds_unchanged.2 (IntegerAttribute.mk 10 0 7) (by decide) 2
  exact ⟨hd.2.2.2.2.2.2.2.2.1,
         hi.2.2.2.2.2.2.1 (IntegerAttribute.mk 10 0 3) (by decide)⟩

end NwestLib
